import Mathlib

/-! Shallow embedding of the anti-flooding agent buffer in
src/client-agent/buffer.c: the circular message ring, its four-level
state machine (NORMAL, WARNING, FULL, FLOOD), the dynamic growth policy
inside buffer_append, and the pop plus notification phases of
dispatch_buffer.  Machine integers (unsigned int) are modelled as Nat
with explicit reduction mod 2^32 where the C arithmetic can wrap.
Allocation outcomes (realloc inside resize_internal_buffer, strdup
inside buffer_append) are passed in as explicit Bool flags.  The
build-time constants MIN_BUFFER_CAPACITY and MAX_BUFFER_CAPACITY live
in a header outside this tree and are carried as configuration fields,
as are the warn_level, normal_level and tolerance internal options read
at buffer_init time. -/

namespace AgentBuffer

/-- The four values of the C state variable: NORMAL, WARNING, FULL, FLOOD. -/
inductive BufferLevel
  | NORMAL
  | WARNING
  | FULL
  | FLOOD
deriving DecidableEq

/-- Configuration read at init time plus the two capacity bound macros. -/
structure Config where
  warn_level : Nat
  normal_level : Nat
  tolerance : Nat
  min_capacity : Nat
  max_capacity : Nat
deriving DecidableEq

/-- The module-level mutable variables of buffer.c gathered in one record:
the pointer array buffer, head index i, tail index j, message_count,
current_capacity, the state variable, the four bit-field flags of struct
buff, the flood timestamp start, the counter behind
w_agentd_state_update(INCREMENT_MSG_COUNT), and a ghost counter of
w_cond_signal calls. -/
structure BufState where
  buffer : List (Option String)
  i : Nat
  j : Nat
  message_count : Nat
  current_capacity : Nat
  state : BufferLevel
  buff_full : Bool
  buff_warn : Bool
  buff_flood : Bool
  buff_normal : Bool
  start : Nat
  agentd_count : Nat
  signals : Nat
deriving DecidableEq

/-- Modulus of the 32-bit unsigned arithmetic used for the counters. -/
def U32 : Nat := 2 ^ 32

/-- C full(): count == capacity - 1, where capacity - 1 is computed in
unsigned 32-bit arithmetic and therefore wraps to 2^32 - 1 when
capacity is 0. -/
def full (count capacity : Nat) : Bool :=
  count % U32 == (capacity + (U32 - 1)) % U32

/-- C empty(): count == 0. -/
def empty (count : Nat) : Bool :=
  count == 0

/-- C warn(): guarded division by capacity - 1, then fill percentage
compared against warn_level. -/
def warn (cfg : Config) (count capacity : Nat) : Bool :=
  if capacity ≤ 1 then false
  else cfg.warn_level ≤ count * 100 / (capacity - 1)

/-- C nowarn(): fill percentage strictly below warn_level. -/
def nowarn (cfg : Config) (count capacity : Nat) : Bool :=
  if capacity ≤ 1 then true
  else count * 100 / (capacity - 1) < cfg.warn_level

/-- C normal(): fill percentage at or below normal_level. -/
def normal (cfg : Config) (count capacity : Nat) : Bool :=
  if capacity ≤ 1 then true
  else count * 100 / (capacity - 1) ≤ cfg.normal_level

/-- C forward(): advance a circular index modulo capacity. -/
def forward (idx capacity : Nat) : Nat :=
  (idx + 1) % capacity

/-- C resize_internal_buffer(): reject a zero or above-maximum request,
then realloc the pointer array in place.  realloc keeps the existing
entries at their old positions; on growth the fresh tail of the array
is set to NULL.  Head, tail and count are not touched.  allocOk models
the realloc outcome.  Returns (0, new state) or (-1, unchanged state). -/
def resize_internal_buffer (cfg : Config) (s : BufState) (new_capacity : Nat)
    (allocOk : Bool) : Int × BufState :=
  if new_capacity = 0 ∨ cfg.max_capacity < new_capacity then (-1, s)
  else if !allocOk then (-1, s)
  else
    (0, { s with
          buffer :=
            if s.current_capacity < new_capacity then
              s.buffer ++ List.replicate (new_capacity - s.current_capacity) none
            else s.buffer.take new_capacity,
          current_capacity := new_capacity })

/-- C buffer_init() on a fresh module: allocate usable + 1 NULL slots,
reset indices, count, state and the four flags.  (Re-init with an
unchanged capacity keeps the old slot contents in the C code; none of
the verified claims depends on that path.) -/
def buffer_init (usable : Nat) : BufState :=
  { buffer := List.replicate (usable + 1) none
    i := 0
    j := 0
    message_count := 0
    current_capacity := usable + 1
    state := .NORMAL
    buff_full := false
    buff_warn := false
    buff_flood := false
    buff_normal := false
    start := 0
    agentd_count := 0
    signals := 0 }

/-- C buffer_is_full(): full() on the current count and capacity. -/
def buffer_is_full (s : BufState) : Bool :=
  full s.message_count s.current_capacity

/-- C buffer_is_empty(): empty() on the current count. -/
def buffer_is_empty (s : BufState) : Bool :=
  empty s.message_count

/-- The capacity requested by the growth block of buffer_append:
double, raise to MIN_BUFFER_CAPACITY, cap at MAX_BUFFER_CAPACITY. -/
def growth_target (cfg : Config) (capacity : Nat) : Nat :=
  let d1 := capacity * 2
  let d2 := if d1 < cfg.min_capacity then cfg.min_capacity else d1
  if cfg.max_capacity < d2 then cfg.max_capacity else d2

/-- The trigger of the growth block of buffer_append: state WARNING, or
state NORMAL with warn() already holding. -/
def growth_cond (cfg : Config) (s : BufState) : Bool :=
  s.state == .WARNING || (s.state == .NORMAL && warn cfg s.message_count s.current_capacity)

/-- The growth block at the top of buffer_append: when triggered and the
target strictly exceeds the current capacity, call
resize_internal_buffer; a failed resize leaves the state unchanged. -/
def append_growth (cfg : Config) (s : BufState) (resizeAllocOk : Bool) : BufState :=
  if growth_cond cfg s then
    if s.current_capacity < growth_target cfg s.current_capacity then
      (resize_internal_buffer cfg s (growth_target cfg s.current_capacity) resizeAllocOk).2
    else s
  else s

/-- The switch (state) block of buffer_append, evaluated on the count
before any insertion.  now is the value of time(NULL); the C test
end - start >= tolerance on a 64-bit signed time_t is start + tolerance
<= now for the nonnegative times modelled here.  The FULL case checks
the timer first, without re-checking fullness. -/
def append_machine (cfg : Config) (s : BufState) (now : Nat) : BufState :=
  match s.state with
  | .NORMAL =>
    if full s.message_count s.current_capacity then
      { s with buff_full := true, state := .FULL, start := now }
    else if warn cfg s.message_count s.current_capacity then
      { s with state := .WARNING, buff_warn := true }
    else s
  | .WARNING =>
    if full s.message_count s.current_capacity then
      { s with buff_full := true, state := .FULL, start := now }
    else if normal cfg s.message_count s.current_capacity then
      { s with state := .NORMAL, buff_warn := false, buff_normal := true }
    else s
  | .FULL =>
    if s.start + cfg.tolerance ≤ now then
      { s with state := .FLOOD, buff_flood := true }
    else if normal cfg s.message_count s.current_capacity then
      { s with state := .NORMAL, buff_full := false, buff_normal := true, start := 0 }
    else if nowarn cfg s.message_count s.current_capacity
        && !full s.message_count s.current_capacity then
      { s with state := .WARNING, buff_full := false, buff_warn := true }
    else s
  | .FLOOD =>
    if normal cfg s.message_count s.current_capacity then
      { s with state := .NORMAL, buff_flood := false, buff_full := false,
               buff_normal := true, start := 0 }
    else if nowarn cfg s.message_count s.current_capacity
        && !full s.message_count s.current_capacity then
      { s with state := .WARNING, buff_flood := false, buff_full := false,
               buff_warn := true }
    else s

/-- The tail of buffer_append after the state machine: drop when full()
holds, otherwise free the slot at the head, strdup the message (dupOk
models the strdup outcome), advance the head, bump the count and signal
the condition variable. -/
def append_store (s : BufState) (msg : String) (dupOk : Bool) : Int × BufState :=
  if full s.message_count s.current_capacity then (-1, s)
  else
    if dupOk then
      (0, { s with
            buffer := (s.buffer.set s.i none).set s.i (some msg),
            i := forward s.i s.current_capacity,
            message_count := s.message_count + 1,
            signals := s.signals + 1 })
    else (-1, { s with buffer := s.buffer.set s.i none })

/-- C buffer_append(): growth block, state machine on the pre-insertion
count, unconditional w_agentd_state_update(INCREMENT_MSG_COUNT), then
drop or store. -/
def buffer_append (cfg : Config) (s : BufState) (msg : String) (now : Nat)
    (resizeAllocOk dupOk : Bool) : Int × BufState :=
  let s1 := append_growth cfg s resizeAllocOk
  let s2 := append_machine cfg s1 now
  let s3 := { s2 with agentd_count := s2.agentd_count + 1 }
  append_store s3 msg dupOk

/-- The downward switch (state) block of a dispatch_buffer iteration,
evaluated on the count before the pop. -/
def pop_machine (cfg : Config) (s : BufState) : BufState :=
  match s.state with
  | .NORMAL => s
  | .WARNING =>
    if normal cfg s.message_count s.current_capacity then
      { s with state := .NORMAL, buff_normal := true, buff_warn := false }
    else s
  | .FULL =>
    if normal cfg s.message_count s.current_capacity then
      { s with state := .NORMAL, buff_normal := true, buff_full := false,
               buff_warn := false, start := 0 }
    else if nowarn cfg s.message_count s.current_capacity then
      { s with state := .WARNING, buff_full := false, buff_warn := true }
    else s
  | .FLOOD =>
    if normal cfg s.message_count s.current_capacity then
      { s with state := .NORMAL, buff_normal := true, buff_flood := false,
               buff_full := false, buff_warn := false, start := 0 }
    else if nowarn cfg s.message_count s.current_capacity then
      { s with state := .WARNING, buff_flood := false, buff_full := false,
               buff_warn := true }
    else s

/-- The pop phase of a dispatch_buffer iteration, reached only after the
condition wait has established a nonempty buffer: downward transitions,
then read the slot at the tail, clear it, advance the tail and
decrement the count. -/
def pop_step (cfg : Config) (s : BufState) : Option String × BufState :=
  let s1 := pop_machine cfg s
  (s1.buffer.getD s1.j none,
   { s1 with
     buffer := s1.buffer.set s1.j none,
     j := forward s1.j s1.current_capacity,
     message_count := s1.message_count - 1 })

/-- The four control-plane notification kinds of dispatch_buffer. -/
inductive Edge
  | warnE
  | fullE
  | floodE
  | normalE
deriving DecidableEq, BEq

/-- The notification phase of a dispatch_buffer iteration, run after the
mutex is released: each set flag is cleared and its message sent, in
the order warn, full, flood, normal. -/
def notify_step (s : BufState) : List Edge × BufState :=
  ((if s.buff_warn then [Edge.warnE] else [])
     ++ (if s.buff_full then [Edge.fullE] else [])
     ++ (if s.buff_flood then [Edge.floodE] else [])
     ++ (if s.buff_normal then [Edge.normalE] else []),
   { s with buff_warn := false, buff_full := false,
            buff_flood := false, buff_normal := false })

/-- C buffer_destroy(): free every slot and the array, zero every
module variable.  The agentd telemetry counter lives outside buffer.c
and is not reset. -/
def buffer_destroy (s : BufState) : BufState :=
  { buffer := []
    i := 0
    j := 0
    message_count := 0
    current_capacity := 0
    state := .NORMAL
    buff_full := false
    buff_warn := false
    buff_flood := false
    buff_normal := false
    start := 0
    agentd_count := s.agentd_count
    signals := s.signals }

/-- C w_agentd_get_buffer_lenght(): the live count, or -1 when the
buffer is not active. -/
def w_agentd_get_buffer_lenght (s : BufState) : Int :=
  if 0 < s.current_capacity then s.message_count else -1

/-- One interleaved operation on the shared buffer: a producer append
(with its time stamp and allocation outcomes), the pop phase of a
dispatcher iteration, or its notification phase. -/
inductive Op
  | append (msg : String) (now : Nat) (resizeAllocOk dupOk : Bool)
  | pop
  | notify

/-- Apply one operation to the buffer state. -/
def step (cfg : Config) (s : BufState) : Op → BufState
  | .append msg now r d => (buffer_append cfg s msg now r d).2
  | .pop => (pop_step cfg s).2
  | .notify => (notify_step s).2

/-- Run a sequence of operations. -/
def run (cfg : Config) (s : BufState) : List Op → BufState
  | [] => s
  | op :: ops => run cfg (step cfg s op) ops

/-- Run a sequence of operations and collect the popped messages. -/
def run_pops (cfg : Config) (s : BufState) : List Op → List (Option String)
  | [] => []
  | Op.pop :: ops => (pop_step cfg s).1 :: run_pops cfg (pop_step cfg s).2 ops
  | Op.append msg now r d :: ops =>
      run_pops cfg (step cfg s (Op.append msg now r d)) ops
  | Op.notify :: ops => run_pops cfg (step cfg s Op.notify) ops

/-- Message literals used by the concrete executions below. -/
def msgA : String := "a"

def msgB : String := "b"

def msgC : String := "c"

def msgD : String := "d"

def msgE : String := "e"

def msgF : String := "f"

def msgG : String := "g"

def msgX : String := "x"

def msgY : String := "y"

/-- Configuration with room to grow: warn 75, normal 25, tolerance 600,
MIN_BUFFER_CAPACITY 2, MAX_BUFFER_CAPACITY 100. -/
def cfgGrow : Config :=
  { warn_level := 75, normal_level := 25, tolerance := 600
    min_capacity := 2, max_capacity := 100 }

/-- Configuration of spec scenario 2 with growth already capped:
warn 75, normal 25, tolerance 10, MAX_BUFFER_CAPACITY 5. -/
def cfgSmall : Config :=
  { warn_level := 75, normal_level := 25, tolerance := 10
    min_capacity := 2, max_capacity := 5 }

/-- Same levels with tolerance 0, the boundary value the configuration
accepts (buffer_init only warns about it). -/
def cfgTol0 : Config :=
  { warn_level := 75, normal_level := 25, tolerance := 0
    min_capacity := 2, max_capacity := 5 }

/-- Configuration for the edge-flag execution: warn 85, normal 20,
tolerance 600, capacity 6 with growth capped. -/
def cfgEdge : Config :=
  { warn_level := 85, normal_level := 20, tolerance := 600
    min_capacity := 2, max_capacity := 6 }

/-- Three appends, two pops, three more appends: the last append finds
fill 75 percent, triggers growth from 5 to 10 while the live region
wraps around the end of the array, and then stores its message. -/
def wrapOps : List Op :=
  [Op.append msgA 0 true true, Op.append msgB 0 true true, Op.append msgC 0 true true,
   Op.pop, Op.pop,
   Op.append msgD 0 true true, Op.append msgE 0 true true, Op.append msgF 0 true true]

/-- The wrapping execution followed by four pops, draining the ring. -/
def wrapDrainOps : List Op :=
  wrapOps ++ [Op.pop, Op.pop, Op.pop, Op.pop]

/-- Four appends into the empty capacity-5 buffer of spec scenario 2. -/
def fourAppendOps : List Op :=
  [Op.append msgA 100 true true, Op.append msgB 100 true true,
   Op.append msgC 100 true true, Op.append msgD 100 true true]

/-- The first three appends of spec scenario 2: count 3 at capacity 5,
fill 75 percent, state still NORMAL. -/
def threeAppendOps : List Op :=
  [Op.append msgA 100 true true, Op.append msgB 100 true true,
   Op.append msgC 100 true true]

/-- Scenario 2 appends, the dropped fifth append that enters FULL, and
one dispatcher pop that leaves the machine in FULL with count 3. -/
def fullCount3Ops : List Op :=
  fourAppendOps ++ [Op.append msgX 100 true true, Op.pop]

/-- Six appends at capacity 6 under cfgEdge: the first five are stored,
the sixth is dropped and enters FULL, setting the full flag. -/
def edgeFillOps : List Op :=
  [Op.append msgA 0 true true, Op.append msgB 0 true true, Op.append msgC 0 true true,
   Op.append msgD 0 true true, Op.append msgE 0 true true, Op.append msgF 0 true true]

/-- A reachable-shaped FULL state with count 3 at capacity 5, used to
instantiate the FLOOD-entry characterization at tolerance 0. -/
def floodSt : BufState :=
  { buffer := List.replicate 5 none
    i := 0
    j := 0
    message_count := 3
    current_capacity := 5
    state := .FULL
    buff_full := true
    buff_warn := false
    buff_flood := false
    buff_normal := false
    start := 0
    agentd_count := 0
    signals := 0 }

/-- A FULL state whose fill of 50 percent lies strictly between
normal_level 25 and warn_level 75, used to instantiate the FULL to
WARNING downgrade. -/
def warnFillSt : BufState :=
  { buffer := List.replicate 5 none
    i := 0
    j := 0
    message_count := 2
    current_capacity := 5
    state := .FULL
    buff_full := true
    buff_warn := false
    buff_flood := false
    buff_normal := false
    start := 0
    agentd_count := 0
    signals := 0 }

/-! Preservation lemmas: which fields each phase of an operation leaves
untouched, read off the corresponding block of buffer.c. -/

theorem append_growth_i (cfg : Config) (s : BufState) (r : Bool) :
    (append_growth cfg s r).i = s.i := by
  unfold append_growth resize_internal_buffer
  repeat' split
  all_goals rfl

theorem append_growth_j (cfg : Config) (s : BufState) (r : Bool) :
    (append_growth cfg s r).j = s.j := by
  unfold append_growth resize_internal_buffer
  repeat' split
  all_goals rfl

theorem append_growth_message_count (cfg : Config) (s : BufState) (r : Bool) :
    (append_growth cfg s r).message_count = s.message_count := by
  unfold append_growth resize_internal_buffer
  repeat' split
  all_goals rfl

theorem append_growth_state (cfg : Config) (s : BufState) (r : Bool) :
    (append_growth cfg s r).state = s.state := by
  unfold append_growth resize_internal_buffer
  repeat' split
  all_goals rfl

theorem append_growth_start (cfg : Config) (s : BufState) (r : Bool) :
    (append_growth cfg s r).start = s.start := by
  unfold append_growth resize_internal_buffer
  repeat' split
  all_goals rfl

theorem append_growth_agentd_count (cfg : Config) (s : BufState) (r : Bool) :
    (append_growth cfg s r).agentd_count = s.agentd_count := by
  unfold append_growth resize_internal_buffer
  repeat' split
  all_goals rfl

theorem append_growth_signals (cfg : Config) (s : BufState) (r : Bool) :
    (append_growth cfg s r).signals = s.signals := by
  unfold append_growth resize_internal_buffer
  repeat' split
  all_goals rfl

theorem append_machine_message_count (cfg : Config) (s : BufState) (now : Nat) :
    (append_machine cfg s now).message_count = s.message_count := by
  unfold append_machine
  rcases s with ⟨buf, i, j, mc, cap, st, f1, f2, f3, f4, t0, ac, sg⟩
  cases st <;> (repeat' split) <;> rfl

theorem append_machine_i (cfg : Config) (s : BufState) (now : Nat) :
    (append_machine cfg s now).i = s.i := by
  unfold append_machine
  rcases s with ⟨buf, i, j, mc, cap, st, f1, f2, f3, f4, t0, ac, sg⟩
  cases st <;> (repeat' split) <;> rfl

theorem append_machine_j (cfg : Config) (s : BufState) (now : Nat) :
    (append_machine cfg s now).j = s.j := by
  unfold append_machine
  rcases s with ⟨buf, i, j, mc, cap, st, f1, f2, f3, f4, t0, ac, sg⟩
  cases st <;> (repeat' split) <;> rfl

theorem append_machine_capacity (cfg : Config) (s : BufState) (now : Nat) :
    (append_machine cfg s now).current_capacity = s.current_capacity := by
  unfold append_machine
  rcases s with ⟨buf, i, j, mc, cap, st, f1, f2, f3, f4, t0, ac, sg⟩
  cases st <;> (repeat' split) <;> rfl

theorem append_machine_agentd_count (cfg : Config) (s : BufState) (now : Nat) :
    (append_machine cfg s now).agentd_count = s.agentd_count := by
  unfold append_machine
  rcases s with ⟨buf, i, j, mc, cap, st, f1, f2, f3, f4, t0, ac, sg⟩
  cases st <;> (repeat' split) <;> rfl

theorem append_machine_signals (cfg : Config) (s : BufState) (now : Nat) :
    (append_machine cfg s now).signals = s.signals := by
  unfold append_machine
  rcases s with ⟨buf, i, j, mc, cap, st, f1, f2, f3, f4, t0, ac, sg⟩
  cases st <;> (repeat' split) <;> rfl

theorem append_store_state (s : BufState) (msg : String) (d : Bool) :
    (append_store s msg d).2.state = s.state := by
  unfold append_store
  repeat' split
  all_goals rfl

theorem append_store_buff_full (s : BufState) (msg : String) (d : Bool) :
    (append_store s msg d).2.buff_full = s.buff_full := by
  unfold append_store
  repeat' split
  all_goals rfl

theorem append_store_buff_warn (s : BufState) (msg : String) (d : Bool) :
    (append_store s msg d).2.buff_warn = s.buff_warn := by
  unfold append_store
  repeat' split
  all_goals rfl

theorem append_store_start (s : BufState) (msg : String) (d : Bool) :
    (append_store s msg d).2.start = s.start := by
  unfold append_store
  repeat' split
  all_goals rfl

theorem append_store_capacity (s : BufState) (msg : String) (d : Bool) :
    (append_store s msg d).2.current_capacity = s.current_capacity := by
  unfold append_store
  repeat' split
  all_goals rfl

theorem append_store_agentd_count (s : BufState) (msg : String) (d : Bool) :
    (append_store s msg d).2.agentd_count = s.agentd_count := by
  unfold append_store
  repeat' split
  all_goals rfl

theorem append_store_fail_fst (s : BufState) (msg : String) :
    (append_store s msg false).1 = -1 := by
  unfold append_store
  split
  · rfl
  · rfl

theorem append_store_fail_message_count (s : BufState) (msg : String) :
    (append_store s msg false).2.message_count = s.message_count := by
  unfold append_store
  split
  · rfl
  · rfl

theorem append_store_fail_i (s : BufState) (msg : String) :
    (append_store s msg false).2.i = s.i := by
  unfold append_store
  split
  · rfl
  · rfl

theorem append_store_fail_j (s : BufState) (msg : String) :
    (append_store s msg false).2.j = s.j := by
  unfold append_store
  split
  · rfl
  · rfl

theorem append_store_fail_signals (s : BufState) (msg : String) :
    (append_store s msg false).2.signals = s.signals := by
  unfold append_store
  split
  · rfl
  · rfl

theorem pop_step_capacity (cfg : Config) (s : BufState) :
    (pop_step cfg s).2.current_capacity = s.current_capacity := by
  unfold pop_step pop_machine
  rcases s with ⟨buf, i, j, mc, cap, st, f1, f2, f3, f4, t0, ac, sg⟩
  cases st <;> (repeat' split) <;> rfl

theorem growth_target_max_bound (cfg : Config) (c : Nat) :
    growth_target cfg c ≤ cfg.max_capacity := by
  simp only [growth_target]
  repeat' split
  all_goals omega

theorem growth_target_eq_min_max (cfg : Config) (c : Nat) :
    growth_target cfg c = min cfg.max_capacity (max cfg.min_capacity (c * 2)) := by
  simp only [growth_target]
  repeat' split
  all_goals omega

theorem append_growth_capacity (cfg : Config) (s : BufState) (r : Bool) :
    (append_growth cfg s r).current_capacity =
      if growth_cond cfg s = true
          ∧ s.current_capacity < growth_target cfg s.current_capacity
          ∧ r = true
      then growth_target cfg s.current_capacity
      else s.current_capacity := by
  have hmax := growth_target_max_bound cfg s.current_capacity
  unfold append_growth resize_internal_buffer
  by_cases hcond : growth_cond cfg s = true
  · by_cases hlt : s.current_capacity < growth_target cfg s.current_capacity
    · have hz : ¬(growth_target cfg s.current_capacity = 0
          ∨ cfg.max_capacity < growth_target cfg s.current_capacity) := by omega
      cases r
      · simp [hcond, hlt, hz]
      · simp [hcond, hlt, hz]
    · simp [hcond, hlt]
  · simp [hcond]

theorem append_growth_capacity_le (cfg : Config) (s : BufState) (r : Bool) :
    s.current_capacity ≤ (append_growth cfg s r).current_capacity := by
  rw [append_growth_capacity]
  split
  case isTrue h => exact Nat.le_of_lt h.2.1
  case isFalse h => exact Nat.le_refl _

theorem buffer_append_state_eq (cfg : Config) (s : BufState) (msg : String)
    (now : Nat) (r d : Bool) :
    (buffer_append cfg s msg now r d).2.state
      = (append_machine cfg (append_growth cfg s r) now).state := by
  unfold buffer_append
  rw [append_store_state]

theorem buffer_append_buff_warn_eq (cfg : Config) (s : BufState) (msg : String)
    (now : Nat) (r d : Bool) :
    (buffer_append cfg s msg now r d).2.buff_warn
      = (append_machine cfg (append_growth cfg s r) now).buff_warn := by
  unfold buffer_append
  rw [append_store_buff_warn]

theorem buffer_append_buff_full_eq (cfg : Config) (s : BufState) (msg : String)
    (now : Nat) (r d : Bool) :
    (buffer_append cfg s msg now r d).2.buff_full
      = (append_machine cfg (append_growth cfg s r) now).buff_full := by
  unfold buffer_append
  rw [append_store_buff_full]

theorem buffer_append_start_eq (cfg : Config) (s : BufState) (msg : String)
    (now : Nat) (r d : Bool) :
    (buffer_append cfg s msg now r d).2.start
      = (append_machine cfg (append_growth cfg s r) now).start := by
  unfold buffer_append
  rw [append_store_start]

theorem pop_step_state_eq (cfg : Config) (s : BufState) :
    (pop_step cfg s).2.state = (pop_machine cfg s).state := rfl

theorem pop_machine_no_flood (cfg : Config) (t : BufState)
    (ht : t.state ≠ BufferLevel.FLOOD) :
    (pop_machine cfg t).state ≠ BufferLevel.FLOOD := by
  unfold pop_machine
  rcases t with ⟨buf, i, j, mc, cap, st, f1, f2, f3, f4, t0, ac, sg⟩
  cases st <;> (repeat' split) <;> simp_all

/-! Claim theorems. -/

/-- C1: the spec demands that a resize repack the live messages into
positions 0..count with tail 0 and head count, preserving FIFO order.
The code reallocs in place: in this execution the growth from capacity
5 to 10 happens while the live region wraps, tail stays 2 and head
stays at the wrap position, and draining the ring returns a NULL slot
in the place of the sixth accepted message, which is stranded behind
the freshly NULLed slots: FIFO delivery of accepted messages is broken. -/
theorem resize_realloc_breaks_fifo :
    (run cfgGrow (buffer_init 4) wrapOps).current_capacity = 10
  ∧ (run cfgGrow (buffer_init 4) wrapOps).j = 2
  ∧ (run cfgGrow (buffer_init 4) wrapOps).i = 1
  ∧ (run cfgGrow (buffer_init 4) wrapOps).message_count = 4
  ∧ run_pops cfgGrow (buffer_init 4) wrapDrainOps
      = [some msgA, some msgB, some msgC, some msgD, some msgE, none] := by
  decide

/-- C2: after the append that grows a wrapped ring from 5 to 10 slots,
the circular-buffer invariant (tail + count) mod capacity == head is
violated: (2 + 4) mod 10 = 6 while head is 1. -/
theorem resize_realloc_breaks_ring_invariant :
    ((run cfgGrow (buffer_init 4) wrapOps).j
        + (run cfgGrow (buffer_init 4) wrapOps).message_count)
      % (run cfgGrow (buffer_init 4) wrapOps).current_capacity = 6
  ∧ (run cfgGrow (buffer_init 4) wrapOps).i = 1
  ∧ ((run cfgGrow (buffer_init 4) wrapOps).j
        + (run cfgGrow (buffer_init 4) wrapOps).message_count)
      % (run cfgGrow (buffer_init 4) wrapOps).current_capacity
    ≠ (run cfgGrow (buffer_init 4) wrapOps).i := by
  decide

/-- C3 counterexample: with usable 4, warn 75, normal 25, tolerance 10
and growth capped at the current capacity, appending four messages to
the empty buffer leaves the machine in WARNING with the full flag
clear, not in FULL as the claim states: the state machine runs on the
count before the insertion. -/
theorem four_appends_reach_warning_not_full :
    (run cfgSmall (buffer_init 4) fourAppendOps).state = BufferLevel.WARNING
  ∧ (run cfgSmall (buffer_init 4) fourAppendOps).state ≠ BufferLevel.FULL
  ∧ (run cfgSmall (buffer_init 4) fourAppendOps).buff_full = false := by
  decide

/-- C3 amended: four appends end in WARNING with the warn flag set and
count 4; the fifth append is the step that enters FULL, sets the full
flag, records full_since, and is dropped with -1 without storing. -/
theorem fifth_append_drops_and_enters_full :
    (run cfgSmall (buffer_init 4) fourAppendOps).state = BufferLevel.WARNING
  ∧ (run cfgSmall (buffer_init 4) fourAppendOps).buff_warn = true
  ∧ (run cfgSmall (buffer_init 4) fourAppendOps).message_count = 4
  ∧ (buffer_append cfgSmall (run cfgSmall (buffer_init 4) fourAppendOps)
        msgE 100 true true).1 = -1
  ∧ (buffer_append cfgSmall (run cfgSmall (buffer_init 4) fourAppendOps)
        msgE 100 true true).2.state = BufferLevel.FULL
  ∧ (buffer_append cfgSmall (run cfgSmall (buffer_init 4) fourAppendOps)
        msgE 100 true true).2.buff_full = true
  ∧ (buffer_append cfgSmall (run cfgSmall (buffer_init 4) fourAppendOps)
        msgE 100 true true).2.start = 100
  ∧ (buffer_append cfgSmall (run cfgSmall (buffer_init 4) fourAppendOps)
        msgE 100 true true).2.message_count = 4 := by
  decide

/-- C4 counterexample: with tolerance 0, a reachable FULL state holds
only 3 of 5 slots (one dispatcher pop after the dropped fifth append),
yet the next append escalates it to FLOOD: the timer branch of the FULL
case does not re-check fullness. -/
theorem flood_entered_while_not_full :
    (run cfgTol0 (buffer_init 4) fullCount3Ops).state = BufferLevel.FULL
  ∧ (run cfgTol0 (buffer_init 4) fullCount3Ops).message_count = 3
  ∧ (run cfgTol0 (buffer_init 4) fullCount3Ops).current_capacity = 5
  ∧ full (run cfgTol0 (buffer_init 4) fullCount3Ops).message_count
      (run cfgTol0 (buffer_init 4) fullCount3Ops).current_capacity = false
  ∧ (buffer_append cfgTol0 (run cfgTol0 (buffer_init 4) fullCount3Ops)
        msgY 100 true true).2.state = BufferLevel.FLOOD := by
  decide

/-- C4 amended: FLOOD is entered only by an append step from state FULL
with full_since + tolerance at or before now; the buffer need not still
be full, since the timer branch does not re-check fullness.  The pop
step of a dispatcher iteration never enters FLOOD. -/
theorem flood_entry_only_from_full_timer (cfg : Config) (s : BufState)
    (msg : String) (now : Nat) (r d : Bool)
    (hs : s.state ≠ BufferLevel.FLOOD)
    (hf : (buffer_append cfg s msg now r d).2.state = BufferLevel.FLOOD) :
    s.state = BufferLevel.FULL ∧ s.start + cfg.tolerance ≤ now
      ∧ ∀ t : BufState, t.state ≠ BufferLevel.FLOOD →
          (pop_step cfg t).2.state ≠ BufferLevel.FLOOD := by
  have h1 := append_growth_state cfg s r
  have h0 := append_growth_start cfg s r
  rw [buffer_append_state_eq] at hf
  unfold append_machine at hf
  split at hf
  · rename_i heq
    exfalso
    split at hf
    · simp at hf
    · split at hf
      · simp at hf
      · rw [heq] at hf
        simp at hf
  · rename_i heq
    exfalso
    split at hf
    · simp at hf
    · split at hf
      · simp at hf
      · rw [heq] at hf
        simp at hf
  · rename_i heq
    split at hf
    · rename_i htime
      have hsf : s.state = BufferLevel.FULL := by rw [← h1, heq]
      rw [h0] at htime
      exact ⟨hsf, htime, fun t ht => by
        rw [pop_step_state_eq]
        exact pop_machine_no_flood cfg t ht⟩
    · exfalso
      split at hf
      · simp at hf
      · split at hf
        · simp at hf
        · rw [heq] at hf
          simp at hf
  · rename_i heq
    exact absurd (h1.symm.trans heq) hs

/-- C4 witness: at tolerance 0, appending to the FULL state with count
3 of capacity 5 enters FLOOD, and the characterization applies. -/
theorem flood_entry_only_from_full_timer_witness :
    floodSt.state = BufferLevel.FULL ∧ floodSt.start + cfgTol0.tolerance ≤ 0 :=
  ⟨(flood_entry_only_from_full_timer cfgTol0 floodSt msgY 0 true true
      (by decide) (by decide)).1,
   (flood_entry_only_from_full_timer cfgTol0 floodSt msgY 0 true true
      (by decide) (by decide)).2.1⟩

/-- C5 counterexample: under cfgEdge the sixth append enters FULL and
sets the full flag; no notification step runs; the flag survives one
dispatcher pop, and then the seventh append (FULL to WARNING downgrade)
clears the still-unnotified full flag, so the FULL notification is
lost. -/
theorem append_clears_unnotified_full_flag :
    (run cfgEdge (buffer_init 5) edgeFillOps).buff_full = true
  ∧ (run cfgEdge (buffer_init 5) (edgeFillOps ++ [Op.pop])).buff_full = true
  ∧ (buffer_append cfgEdge (run cfgEdge (buffer_init 5) (edgeFillOps ++ [Op.pop]))
        msgG 0 true true).2.buff_full = false
  ∧ (buffer_append cfgEdge (run cfgEdge (buffer_init 5) (edgeFillOps ++ [Op.pop]))
        msgG 0 true true).2.state = BufferLevel.WARNING := by
  decide

/-- C5 amended: the notification phase of the dispatcher emits exactly
the flags set at its start, in the order warn, full, flood, normal, and
clears all four; flags are sticky only until a downgrade transition of
the state machine clears them, which can happen before notification. -/
theorem notify_emits_and_clears_set_flags (s : BufState) :
    (notify_step s).2.buff_warn = false
  ∧ (notify_step s).2.buff_full = false
  ∧ (notify_step s).2.buff_flood = false
  ∧ (notify_step s).2.buff_normal = false
  ∧ (notify_step s).1.contains Edge.warnE = s.buff_warn
  ∧ (notify_step s).1.contains Edge.fullE = s.buff_full
  ∧ (notify_step s).1.contains Edge.floodE = s.buff_flood
  ∧ (notify_step s).1.contains Edge.normalE = s.buff_normal := by
  obtain ⟨buf, i, j, mc, cap, st, f1, f2, f3, f4, t0, ac, sg⟩ := s
  cases f1 <;> cases f2 <;> cases f3 <;> cases f4 <;>
    exact ⟨rfl, rfl, rfl, rfl, rfl, rfl, rfl, rfl⟩

/-- C6 counterexample: a reachable FULL state with count 3 of capacity
5 has fill 75, not full and not normal, exactly the condition under
which the claim requires a transition to WARNING; the code evaluates
nowarn, 75 < 75 is false, and stays in FULL. -/
theorem full_state_sticky_at_warn_fill :
    (run cfgSmall (buffer_init 4) fullCount3Ops).state = BufferLevel.FULL
  ∧ full (run cfgSmall (buffer_init 4) fullCount3Ops).message_count
      (run cfgSmall (buffer_init 4) fullCount3Ops).current_capacity = false
  ∧ normal cfgSmall (run cfgSmall (buffer_init 4) fullCount3Ops).message_count
      (run cfgSmall (buffer_init 4) fullCount3Ops).current_capacity = false
  ∧ (buffer_append cfgSmall (run cfgSmall (buffer_init 4) fullCount3Ops)
        msgY 105 true true).2.state = BufferLevel.FULL
  ∧ (buffer_append cfgSmall (run cfgSmall (buffer_init 4) fullCount3Ops)
        msgY 105 true true).2.state ≠ BufferLevel.WARNING := by
  decide

/-- C6 amended: in FULL with the timer unexpired, the append-side
machine moves to WARNING only when the fill is strictly below
warn_level and the buffer is not full; it then sets the warn flag,
clears the full flag, and leaves the full_since timestamp unchanged
rather than clearing it. -/
theorem full_downgrade_below_warn_to_warning (cfg : Config) (s : BufState)
    (msg : String) (now : Nat) (r d : Bool)
    (hst : s.state = BufferLevel.FULL)
    (htol : ¬ s.start + cfg.tolerance ≤ now)
    (hnorm : normal cfg s.message_count s.current_capacity = false)
    (hnw : nowarn cfg s.message_count s.current_capacity = true)
    (hfull : full s.message_count s.current_capacity = false) :
    (buffer_append cfg s msg now r d).2.state = BufferLevel.WARNING
  ∧ (buffer_append cfg s msg now r d).2.buff_warn = true
  ∧ (buffer_append cfg s msg now r d).2.buff_full = false
  ∧ (buffer_append cfg s msg now r d).2.start = s.start := by
  obtain ⟨buf, i, j, mc, cap, st, f1, f2, f3, f4, t0, ac, sg⟩ := s
  cases st
  case NORMAL => simp at hst
  case WARNING => simp at hst
  case FLOOD => simp at hst
  case FULL =>
    cases d <;> cases r <;>
      simp [buffer_append, append_growth, growth_cond, append_machine, append_store,
            htol, hnorm, hnw, hfull]

/-- C6 witness: the downgrade theorem applied at fill 50 between
normal 25 and warn 75 with the timer unexpired. -/
theorem full_downgrade_below_warn_to_warning_witness :
    (buffer_append cfgSmall warnFillSt msgY 5 true true).2.state = BufferLevel.WARNING
  ∧ (buffer_append cfgSmall warnFillSt msgY 5 true true).2.buff_warn = true
  ∧ (buffer_append cfgSmall warnFillSt msgY 5 true true).2.buff_full = false
  ∧ (buffer_append cfgSmall warnFillSt msgY 5 true true).2.start = warnFillSt.start :=
  full_downgrade_below_warn_to_warning cfgSmall warnFillSt msgY 5 true true
    (by decide) (by decide) (by decide) (by decide) (by decide)

/-- C7 counterexample: the fifth append under cfgSmall is dropped with
-1, yet the agentd message counter still climbs from 4 to 5, because
w_agentd_state_update runs before the fullness check. -/
theorem dropped_append_increments_agentd_counter :
    (run cfgSmall (buffer_init 4) fourAppendOps).agentd_count = 4
  ∧ (buffer_append cfgSmall (run cfgSmall (buffer_init 4) fourAppendOps)
        msgE 100 true true).1 = -1
  ∧ (buffer_append cfgSmall (run cfgSmall (buffer_init 4) fourAppendOps)
        msgE 100 true true).2.agentd_count = 5 := by
  decide

/-- C7 amended: every buffer_append call increments the agentd message
counter by exactly one, whether the message is stored, dropped on a
full buffer, or lost to a failed strdup. -/
theorem buffer_append_increments_agentd_counter (cfg : Config) (s : BufState)
    (msg : String) (now : Nat) (r d : Bool) :
    (buffer_append cfg s msg now r d).2.agentd_count = s.agentd_count + 1 := by
  simp only [buffer_append, append_store_agentd_count, append_machine_agentd_count,
    append_growth_agentd_count]

/-- C8 counterexample: an append with three messages stored at capacity
5 crosses the warn threshold, so even when the strdup of the new
message fails and -1 is returned, the state has already moved from
NORMAL to WARNING and the warn flag is set: the queue state is not
unchanged. -/
theorem strdup_failure_after_state_transition :
    (run cfgSmall (buffer_init 4) threeAppendOps).state = BufferLevel.NORMAL
  ∧ (run cfgSmall (buffer_init 4) threeAppendOps).buff_warn = false
  ∧ (buffer_append cfgSmall (run cfgSmall (buffer_init 4) threeAppendOps)
        msgD 100 true false).1 = -1
  ∧ (buffer_append cfgSmall (run cfgSmall (buffer_init 4) threeAppendOps)
        msgD 100 true false).2.state = BufferLevel.WARNING
  ∧ (buffer_append cfgSmall (run cfgSmall (buffer_init 4) threeAppendOps)
        msgD 100 true false).2.buff_warn = true := by
  decide

/-- C8 amended: when the strdup of the message copy fails, buffer_append
returns -1 and the ring accounting is untouched: count, head, tail and
the signal count are exactly as before the call; the growth attempt and
the state-machine step, however, have already run. -/
theorem strdup_failure_keeps_ring_fields (cfg : Config) (s : BufState)
    (msg : String) (now : Nat) (r : Bool) :
    (buffer_append cfg s msg now r false).1 = -1
  ∧ (buffer_append cfg s msg now r false).2.message_count = s.message_count
  ∧ (buffer_append cfg s msg now r false).2.i = s.i
  ∧ (buffer_append cfg s msg now r false).2.j = s.j
  ∧ (buffer_append cfg s msg now r false).2.signals = s.signals := by
  refine ⟨?_, ?_, ?_, ?_, ?_⟩ <;>
    simp only [buffer_append, append_store_fail_fst, append_store_fail_message_count,
      append_store_fail_i, append_store_fail_j, append_store_fail_signals,
      append_machine_message_count, append_machine_i, append_machine_j,
      append_machine_signals, append_growth_message_count, append_growth_i,
      append_growth_j, append_growth_signals]

/-- C9: the requested growth target equals
min(MAX_CAPACITY, max(MIN_CAPACITY, capacity * 2)); the capacity after
an append is the target exactly when the growth trigger holds, the
target strictly exceeds the current capacity and the realloc succeeds,
and is unchanged otherwise; capacity never decreases across an append,
and a dispatcher pop never changes it. -/
theorem growth_policy_and_capacity_monotone (cfg : Config) (s : BufState)
    (msg : String) (now : Nat) (r d : Bool) :
    growth_target cfg s.current_capacity
        = min cfg.max_capacity (max cfg.min_capacity (s.current_capacity * 2))
  ∧ (buffer_append cfg s msg now r d).2.current_capacity
        = (if growth_cond cfg s = true
              ∧ s.current_capacity < growth_target cfg s.current_capacity
              ∧ r = true
           then growth_target cfg s.current_capacity
           else s.current_capacity)
  ∧ s.current_capacity ≤ (buffer_append cfg s msg now r d).2.current_capacity
  ∧ (pop_step cfg s).2.current_capacity = s.current_capacity := by
  have hcap : (buffer_append cfg s msg now r d).2.current_capacity
      = (append_growth cfg s r).current_capacity := by
    simp only [buffer_append, append_store_capacity, append_machine_capacity]
  refine ⟨growth_target_eq_min_max cfg s.current_capacity, ?_, ?_, pop_step_capacity cfg s⟩
  · rw [hcap, append_growth_capacity]
  · rw [hcap]
    exact append_growth_capacity_le cfg s r

/-- C10: after buffer_destroy zeroes capacity and count, the fullness
test compares 0 against (0 - 1) taken mod 2^32, which is 2^32 - 1, so
buffer_is_full reports false and buffer_is_empty reports true instead
of faulting. -/
theorem destroyed_buffer_reports_not_full_empty (s : BufState) :
    buffer_is_full (buffer_destroy s) = false
  ∧ buffer_is_empty (buffer_destroy s) = true
  ∧ (buffer_destroy s).current_capacity = 0
  ∧ (buffer_destroy s).message_count = 0
  ∧ ((buffer_destroy s).current_capacity + (U32 - 1)) % U32 = U32 - 1 := by
  simp [buffer_is_full, buffer_is_empty, buffer_destroy, full, empty, U32]

end AgentBuffer
